import Mathlib

/-!
Verification of the document image classification engine of
`src/app/image_validator.py` (koli-admin).

The image-processing probes themselves (OpenCV edge detection, Haar face
detection, Tesseract OCR, the Levenshtein library) are external capabilities;
their *outputs* (quality metrics, text density, face-area ratio,
document-shape flag, per-orientation OCR candidate texts, and a string
similarity function) are parameters of the embedding.  Everything downstream
of those probes — ID-number format checking, name normalization and matching,
the OCR orientation search, the checks-list construction, and the decision
cascade of `analyze_id_image` — is translated faithfully from the source.

Floats are modelled as exact rationals (`ℚ`); the engine only ever compares
against and combines fixed decimal constants, which `ℚ` represents exactly.
Python's `\s` / `str.strip()` / `str.split()` whitespace set is modelled by
the six ASCII whitespace characters; `str.isalpha` / `\d` by the ASCII
classes, matching the regex classes `[a-zA-Z]` / `[0-9]` used by the source
on the ASCII inputs it processes.
-/

/-- The six characters matched by Python's `\s` on ASCII text:
space, tab, newline, carriage return, vertical tab, form feed. -/
def isPySpace (c : Char) : Bool :=
  c = ' ' || c = '\t' || c = '\n' || c = '\r' || c = Char.ofNat 11 || c = Char.ofNat 12

/-- Characters kept by `re.sub(r'[^a-zA-Z\s]', '', name)`: letters and whitespace. -/
def keepChar (c : Char) : Bool :=
  c.isAlpha || isPySpace c

/-- Python `str.strip()`: drop leading and trailing whitespace. -/
def pyStrip (s : String) : String :=
  ⟨((s.toList.dropWhile isPySpace).reverse.dropWhile isPySpace).reverse⟩

/-- Character-level body of `_normalize_name`: keep letters/whitespace, lowercase. -/
def normChars (l : List Char) : List Char :=
  (l.filter keepChar).map Char.toLower

/-- `_normalize_name`: `re.sub(r'[^a-zA-Z\s]', '', name).lower().strip()`. -/
def normalizeName (name : String) : String :=
  pyStrip ⟨normChars name.toList⟩

/-- Accumulator-style splitter behind Python's no-argument `str.split()`:
splits on runs of whitespace and drops empty pieces.  `cur` holds the
(reversed) characters of the word currently being read. -/
def wordsAux (cur : List Char) : List Char → List (List Char)
  | [] => if cur = [] then [] else [cur.reverse]
  | c :: cs =>
    if isPySpace c then
      if cur = [] then wordsAux [] cs else cur.reverse :: wordsAux [] cs
    else
      wordsAux (c :: cur) cs

/-- Python `str.split()` with no arguments. -/
def pyWords (s : String) : List String :=
  (wordsAux [] s.toList).map fun l => ⟨l⟩

/-- Python truthiness of an optional string: `None` and `""` are falsy. -/
def pyTruthy : Option String → Bool
  | none => false
  | some s => !s.isEmpty

/-- `re.sub(r'\D', '', id_number)`: keep only digit characters. -/
def digitsOnly (s : String) : String :=
  ⟨s.toList.filter Char.isDigit⟩

/-- `ID_DIGIT_REQUIREMENTS`: normalized ID type → expected digit count. -/
def idDigitRequirementsTable : List (String × Nat) :=
  [("National ID", 16),        -- PhilSys: XXXX-XXXX-XXXX-XXXX = 16 digits
   ("SSS", 10),                -- SS-XXXXXXXX-X = 10 digits
   ("UMID", 12),               -- CRN: XXXX-XXXXXXX-X = 12 digits
   ("GSIS", 11),               -- BPN: 11 digits
   ("PRC ID", 7),
   ("Driver\x27s License", 11),  -- A01-00-123456 = 11 digits
   ("Passport", 9),            -- alphanumeric, skip digit check
   ("PhilHealth", 12),         -- PIN: XX-XXXXXXXXX-X = 12 digits
   ("Voter\x27s ID", 9),
   ("TIN ID", 9)]              -- XXX-XXX-XXX = 9 digits

/-- `ID_DIGIT_REQUIREMENTS.get(id_type)`. -/
def idDigitRequirements (idType : String) : Option Nat :=
  idDigitRequirementsTable.lookup idType

/-- The alias table inside `_normalize_id_type`. -/
def idTypeAliases : List (String × String) :=
  [("UMID (Unified Multi-Purpose ID)", "UMID"),
   ("PRC ID (Professional License)", "PRC ID"),
   ("National ID (PhilSys)", "National ID"),
   ("Driver\x27s License", "Driver\x27s License"),
   ("Drivers License", "Driver\x27s License")]

/-- `_normalize_id_type`: falsy input maps to `"Others"`, else strip and
resolve through the alias table (defaulting to the stripped value). -/
def normalizeIdType (idType : Option String) : String :=
  match idType with
  | none => "Others"
  | some s =>
    if s.isEmpty then "Others"
    else
      let normalized := pyStrip s
      (idTypeAliases.lookup normalized).getD normalized

/-- `_validate_id_number_format`: returns `(is_valid, detail_message)`. -/
def validateIdNumberFormat (idNumber : Option String) (idType : String) : Bool × String :=
  if !pyTruthy idNumber then
    (true, "No ID number provided for format check.")
  else
    let num := idNumber.getD ""
    let digits := digitsOnly num
    match idDigitRequirements idType with
    | none => (true, "No digit requirement defined for " ++ idType ++ ".")
    | some expected =>
      if digits.length = expected then
        (true, idType ++ " number has correct " ++ toString expected ++ "-digit format.")
      else
        (false,
         idType ++ " number must have exactly " ++ toString expected ++ " digits " ++
           "(found " ++ toString digits.length ++ " digits in \x27" ++ num ++ "\x27).")

/-- Python `max(values, default)`: the maximum of a list, or `default` when empty. -/
def pyMax (default : ℚ) : List ℚ → ℚ
  | [] => default
  | x :: xs => xs.foldl max x

/-!
### Name Matcher (`_match_name` and helpers)

The Levenshtein library's `ratio` function is an external capability and is a
parameter `ratio : String → String → ℚ` of the embedding.  Python builds
`ocr_tokens` as a `set`; only membership tests, existential scans, and maxima
are taken over it, for which a plain list is observationally equivalent, so
the token collection is modelled as a list.  The source's debug printing,
logging, and debug-file writes do not affect the returned value and are
omitted.
-/

/-- Per-token matching loop body of `_match_name`: a claimed-name token is
matched by exact membership; a 1-character token by any OCR token starting
with it; a token of length ≥ 3 by prefix or by fuzzy similarity ≥ 0.82. -/
def tokenMatched (ratio : String → String → ℚ) (ocrTokens : List String)
    (token : String) : Bool :=
  if ocrTokens.contains token then true
  else if token.length = 1 then ocrTokens.any fun t => token.isPrefixOf t
  else if 3 ≤ token.length then
    if ocrTokens.any (fun t => token.isPrefixOf t) then true
    else decide ((0.82 : ℚ) ≤ pyMax 0 (ocrTokens.map (ratio token)))
  else false

/-- `user_tokens = _normalize_name(user_name).split()`. -/
def userTokensOf (name : String) : List String :=
  pyWords (normalizeName name)

/-- `ocr_tokens = set(_normalize_name(ocr_text).split())`, modelled as a list. -/
def ocrTokensOf (ocrText : String) : List String :=
  pyWords (normalizeName ocrText)

/-- `match_ratio = len(matched_tokens) / len(user_tokens) if user_tokens else 0.0`. -/
def matchRatioOf (ratio : String → String → ℚ) (ocrText name : String) : ℚ :=
  let toks := userTokensOf name
  if toks.isEmpty then 0
  else ((toks.countP (tokenMatched ratio (ocrTokensOf ocrText))) : ℚ) / (toks.length : ℚ)

/-- Split a character list at every occurrence of `sep`, keeping empty
pieces, as Python's `str.split(sep)` does. -/
def splitChar (sep : Char) : List Char → List (List Char)
  | [] => [[]]
  | c :: cs =>
    if c = sep then [] :: splitChar sep cs
    else
      match splitChar sep cs with
      | [] => [[c]]
      | h :: t => (c :: h) :: t

/-- Python `ocr_text.split('\n')`. -/
def pySplitLines (s : String) : List String :=
  (splitChar '\n' s.toList).map fun l => ⟨l⟩

/-- Full-name fuzzy similarity across every OCR line: the running maximum of
`ratio(user_normalized, line_norm)` over the lines of the OCR text whose
normalized length is at least 40% of the normalized claimed-name length. -/
def maxSimilarityOf (ratio : String → String → ℚ) (ocrText name : String) : ℚ :=
  let userNormalized := normalizeName name
  (pySplitLines ocrText).foldl
    (fun m line =>
      let lineNorm := normalizeName line
      if (userNormalized.length : ℚ) * 0.4 ≤ (lineNorm.length : ℚ) then
        max m (ratio userNormalized lineNorm)
      else m)
    0

/-- Python's `f"{conf:.0%}"` formatting of a confidence value, approximated by
rounding `conf * 100` to the nearest integer (float string formatting itself
is outside the rational model). -/
def pctFmt (q : ℚ) : String :=
  toString (round (q * 100)) ++ "%"

/-- `_match_name`: returns `(is_match, confidence, detail)`. -/
def matchName (ratio : String → String → ℚ) (levenshteinAvailable : Bool)
    (ocrText userName : String) : Bool × ℚ × String :=
  if userName.isEmpty then
    (true, 0.5, "Name verification skipped (no name provided).")
  -- `if not ocr_text or len(ocr_text.strip()) < 5`: an empty text strips to
  -- length 0 < 5, so the single length test covers both disjuncts.
  else if (pyStrip ocrText).length < 5 then
    (true, 0.2, "Name verification unavailable (OCR extraction failed — manual review required).")
  else if !levenshteinAvailable then
    (true, 0.5, "Name matching library not available (manual verification required).")
  else if (userTokensOf userName).isEmpty then
    (true, 0.5, "User name format issue (manual verification required).")
  else
    let matchRatio := matchRatioOf ratio ocrText userName
    let maxSimilarity := maxSimilarityOf ratio ocrText userName
    -- Decision: 60% token match OR 65% full-name similarity.
    if (0.60 : ℚ) ≤ matchRatio ∨ (0.65 : ℚ) ≤ maxSimilarity then
      (true, max matchRatio maxSimilarity,
       "Name match found (confidence: " ++ pctFmt (max matchRatio maxSimilarity) ++ ").")
    else
      (false, max matchRatio maxSimilarity,
       "Name mismatch detected (ID may not belong to applicant).")

/-- A concrete exact-equality similarity function used to instantiate the
`ratio` parameter in concrete evaluations. -/
def ratioIndicator (a b : String) : ℚ :=
  if a = b then 1 else 0

/-- Join raw whitespace-delimited tokens back into a claimed-name string with
single spaces, for stating token-permutation properties of the name matcher. -/
def joinWithSpace : List String → String
  | [] => ""
  | [t] => t
  | t :: ts => t ++ " " ++ joinWithSpace ts

/-- The character-level word list of a string's normalized form (the strip
step of `_normalize_name` cannot change the word list and is elided here). -/
def charWords (s : String) : List (List Char) :=
  wordsAux [] (normChars s.toList)

/-!
### Text-Extraction Engine (`_extract_text_from_image`)

The OCR attempt on each orientation (`_ocr_attempt`) is an external
capability; its four candidate outputs (0°, 90°, 270°, 180°) are parameters.
The quality scoring and the orientation search are translated from the
source.
-/

/-- `_text_quality_score`: 0 for text shorter than 10 characters, otherwise
(alphabetic-character fraction) × (count of whitespace tokens of length ≥ 3). -/
def textQualityScore (text : String) : ℚ :=
  if text.length < 10 then 0
  else
    let alphaCount := (text.toList.filter Char.isAlpha).length
    let alphaRatio := (alphaCount : ℚ) / (text.length : ℚ)
    let wordCount := ((pyWords text).filter fun w => 3 ≤ w.length).length
    alphaRatio * (wordCount : ℚ)

/-- Orientation search of `_extract_text_from_image` over the four candidate
texts.  The source tracks `best_score` alongside `best_text`; since the score
is a pure function of the text, recomputing it is equivalent. -/
def extractTextFromImage (available : Bool) (t0 t90 t270 t180 : String) : String :=
  if !available then ""
  else if textQualityScore t0 < 5 then
    let b1 := if textQualityScore t0 < textQualityScore t90 then t90 else t0
    let b2 := if textQualityScore b1 < textQualityScore t270 then t270 else b1
    let b3 := if textQualityScore b2 < textQualityScore t180 then t180 else b2
    b3
  else t0

/-- Written from the spec's words (§4.3): the best-scoring candidate across
the orientations, with ties resolved in favor of the earliest-evaluated
candidate, i.e. the first candidate whose score is ≥ every candidate's score. -/
def bestCandidateSpec (cands : List String) : String :=
  (cands.find? fun c =>
    cands.all fun d => textQualityScore d ≤ textQualityScore c).getD ""

/-!
### Decision Engine (`analyze_id_image`)

The probe outputs computed from the downloaded image are gathered in
`Signals`.  The status/category literals of the source (`"Valid"`,
`"Invalid"`, `"identification_card"`, `"selfie"`, `"unknown"`, `"pass"`,
`"warn"`, `"fail"`) are kept as strings.
-/

/-- The per-image probe outputs consumed by the decision engine. -/
structure Signals where
  brightness : ℚ
  contrast : ℚ
  sharpness : ℚ
  edge_density : ℚ
  text_density : ℚ
  largest_face_ratio : ℚ
  has_document_shape : Bool
deriving DecidableEq

/-- One entry of the `checks` list. -/
structure ImageCheck where
  name : String
  status : String
  detail : String
deriving DecidableEq

/-- The result structure returned by `analyze_id_image`. -/
structure ImageAnalysisResult where
  status : String
  category : String
  message : String
  reasons : List String
  checks : List ImageCheck
  confidence : ℚ
deriving DecidableEq

/-- `has_card_portrait = 0.03 <= largest_face_ratio <= 0.45`. -/
def hasCardPortrait (sig : Signals) : Bool :=
  decide ((0.03 : ℚ) ≤ sig.largest_face_ratio ∧ sig.largest_face_ratio ≤ (0.45 : ℚ))

/-- `severe_blur = sharpness < 35`. -/
def severeBlur (sig : Signals) : Bool :=
  decide (sig.sharpness < (35 : ℚ))

/-- `soft_blur = sharpness < 55`. -/
def softBlur (sig : Signals) : Bool :=
  decide (sig.sharpness < (55 : ℚ))

/-- `poor_lighting = brightness < 45 or brightness > 230`. -/
def poorLighting (sig : Signals) : Bool :=
  decide (sig.brightness < (45 : ℚ) ∨ (230 : ℚ) < sig.brightness)

/-- `low_text_presence = text_density < 0.008`. -/
def lowTextPresence (sig : Signals) : Bool :=
  decide (sig.text_density < (0.008 : ℚ))

/-- `selfie_signal`: dominant face, no document shape, little text. -/
def selfieSignal (sig : Signals) : Bool :=
  decide ((0.08 : ℚ) ≤ sig.largest_face_ratio) &&
    !sig.has_document_shape &&
    decide (sig.text_density < (0.015 : ℚ))

/-- `screenshot_like_signal`. -/
def screenshotSignal (sig : Signals) : Bool :=
  !sig.has_document_shape &&
    !hasCardPortrait sig &&
    decide ((0.025 : ℚ) ≤ sig.text_density) &&
    decide (sig.edge_density < (0.035 : ℚ)) &&
    decide ((45 : ℚ) ≤ sig.sharpness)

/-- The additive, clamped `document_score`. -/
def documentScore (sig : Signals) : ℚ :=
  let s := (0 : ℚ)
  let s := if sig.has_document_shape then s + 0.25 else s
  let s := if (0.012 : ℚ) ≤ sig.text_density then s + 0.30
           else if (0.008 : ℚ) ≤ sig.text_density then s + 0.15 else s
  let s := if (60 : ℚ) ≤ sig.sharpness then s + 0.20
           else if (40 : ℚ) ≤ sig.sharpness then s + 0.10 else s
  let s := if (25 : ℚ) ≤ sig.contrast then s + 0.10 else s
  let s := if (0.03 : ℚ) ≤ sig.edge_density then s + 0.10 else s
  let s := if hasCardPortrait sig then s + 0.15 else s
  let s := if selfieSignal sig then s - 0.10 else s
  let s := if screenshotSignal sig then s - 0.25 else s
  let s := if severeBlur sig then s - 0.20
           else if softBlur sig then s - 0.08 else s
  let s := if poorLighting sig then s - 0.08 else s
  max 0 (min 1 s)

/-- The checks list assembled before the decision cascade: seven
unconditional entries, then an "ID Number Format" entry when a claimed
number was supplied, then a "Name Match" entry when name matching ran. -/
def buildChecks (sig : Signals) (idNumber : Option String)
    (nameMatchResult : Option (Bool × ℚ × String))
    (idFormatValid : Bool) (idFormatDetail : String) : List ImageCheck :=
  [⟨"Card Boundary",
    if sig.has_document_shape then "pass" else "warn",
    if sig.has_document_shape then "Clear ID card edges detected."
    else "No clear full-card boundary detected."⟩,
   ⟨"Printed Details",
    if (0.012 : ℚ) ≤ sig.text_density then "pass"
    else if (0.008 : ℚ) ≤ sig.text_density then "warn" else "fail",
    if (0.012 : ℚ) ≤ sig.text_density then "Readable printed details detected."
    else if (0.008 : ℚ) ≤ sig.text_density then
      "Some printed details detected, clarity limited."
    else "Very low readable text detected."⟩,
   ⟨"Sharpness",
    if severeBlur sig then "fail" else if softBlur sig then "warn" else "pass",
    if severeBlur sig then "Image is too blurry."
    else if softBlur sig then "Image is slightly blurry."
    else "Image sharpness is acceptable."⟩,
   ⟨"Lighting",
    if poorLighting sig then "warn" else "pass",
    if poorLighting sig then "Lighting may affect verification accuracy."
    else "Lighting is acceptable."⟩,
   ⟨"Selfie Signal",
    if selfieSignal sig then "fail" else "pass",
    if selfieSignal sig then "Dominant face without card features (selfie-like)."
    else "No selfie-only signal detected."⟩,
   ⟨"Card Portrait",
    if hasCardPortrait sig then "pass" else "warn",
    if hasCardPortrait sig then "Portrait area consistent with ID layout."
    else "No clear card-portrait region detected."⟩,
   ⟨"Screenshot Signal",
    if screenshotSignal sig then "fail" else "pass",
    if screenshotSignal sig then "Image appears to be a screenshot or non-ID content."
    else "No screenshot/non-ID signal detected."⟩] ++
  (if pyTruthy idNumber then
    [⟨"ID Number Format", if idFormatValid then "pass" else "fail", idFormatDetail⟩]
   else []) ++
  (match nameMatchResult with
   | some (isMatch, _, detail) =>
     [⟨"Name Match", if isMatch then "pass" else "fail", detail⟩]
   | none => [])

/-- `name_match_result = _match_name(ocr_text, user_name) if user_name else None`. -/
def nameMatchResultOf (ratio : String → String → ℚ) (levenshteinAvailable : Bool)
    (ocrText : String) (userName : Option String) : Option (Bool × ℚ × String) :=
  if pyTruthy userName then
    some (matchName ratio levenshteinAvailable ocrText (userName.getD ""))
  else none

/-- The guard of the name-mismatch branch:
`name_match_result is not None and not is_match and similarity > 0.2`. -/
def nameBranchFires : Option (Bool × ℚ × String) → Bool
  | some (isMatch, similarity, _) => !isMatch && decide ((0.2 : ℚ) < similarity)
  | none => false

/-- The similarity carried by the name-match result (0 when absent). -/
def nameSimilarityOf : Option (Bool × ℚ × String) → ℚ
  | some (_, similarity, _) => similarity
  | none => 0

/-- Branch 1: selfie. -/
def selfieResult (phrase : String) (checks : List ImageCheck) (faceRatio : ℚ) :
    ImageAnalysisResult :=
  let r0 := "The image attached is a selfie and not a valid " ++ phrase ++ " image."
  ⟨"Invalid", "selfie", r0,
   [r0, "Detected a dominant face region without a clear card boundary."],
   checks, min 0.99 (0.65 + faceRatio)⟩

/-- Branch 2: claimed ID number fails the format check. -/
def idFormatFailResult (phrase : String) (checks : List ImageCheck)
    (idFormatDetail : String) : ImageAnalysisResult :=
  ⟨"Invalid", "unknown", idFormatDetail,
   [idFormatDetail, "Please verify the " ++ phrase ++ " number is entered correctly."],
   checks, 0.95⟩

/-- Branch 3: name mismatch with usable OCR. -/
def nameMismatchResult (phrase : String) (checks : List ImageCheck) (similarity : ℚ) :
    ImageAnalysisResult :=
  let r0 := "The name on the " ++ phrase ++ " does not match the applicant\x27s name."
  ⟨"Invalid", "unknown", r0,
   [r0, "The submitted ID may belong to a different person."],
   checks, min 0.96 (max 0.75 (0.85 + similarity * 0.1))⟩

/-- Branch 4: severe blur. -/
def blurResult (phrase : String) (checks : List ImageCheck) (sharpness : ℚ) :
    ImageAnalysisResult :=
  let r0 := "Image is too blurry to reliably verify the submitted " ++ phrase ++ "."
  ⟨"Invalid", "unknown", r0,
   [r0, "Retake the photo with better focus and avoid motion blur."],
   checks, min 0.95 (max 0.45 (1 - sharpness / 110))⟩

/-- Branch 5: screenshot-like content. -/
def screenshotResult (phrase : String) (checks : List ImageCheck) (textDensity : ℚ) :
    ImageAnalysisResult :=
  let r0 := "The uploaded image appears to be a screenshot or non-" ++ phrase ++ " content."
  ⟨"Invalid", "unknown", r0,
   [r0, "Please upload a clear photo of the physical ID card, not a screen capture or chat image."],
   checks, min 0.96 (max 0.60 (0.78 + textDensity))⟩

/-- Branch 6: low text density without a document shape. -/
def lowTextResult (phrase : String) (checks : List ImageCheck) (docScore : ℚ) :
    ImageAnalysisResult :=
  let r0 := "The image lacks readable printed details expected on a " ++ phrase ++ "."
  ⟨"Invalid", "unknown", r0,
   [r0, "Capture a full card image with clearer text and visible card features."],
   checks, min 0.92 (max 0.48 (0.75 - docScore))⟩

/-- Branch 7: document shape with sufficient document score. -/
def validShapeResult (phrase : String) (checks : List ImageCheck) (docScore : ℚ) :
    ImageAnalysisResult :=
  let r0 := "Image features are consistent with a valid " ++ phrase ++ " card capture."
  ⟨"Valid", "identification_card", r0,
   [r0, "Card boundary and printed details were detected successfully."],
   checks, min 0.98 (max 0.55 docScore)⟩

/-- Branch 8: card portrait with dense text and high document score. -/
def validPortraitResult (phrase : String) (checks : List ImageCheck) (docScore : ℚ) :
    ImageAnalysisResult :=
  let r0 := "Image features are consistent with a valid " ++ phrase ++ " card capture."
  ⟨"Valid", "identification_card", r0,
   [r0, "Card boundary is partially visible; text and security details are sufficient."],
   checks, min 0.95 (max 0.55 docScore)⟩

/-- Branch 9: dense text and edges in landscape orientation. -/
def validLandscapeResult (phrase : String) (checks : List ImageCheck) (docScore : ℚ) :
    ImageAnalysisResult :=
  let r0 := "Image features are consistent with a valid " ++ phrase ++ " card capture."
  ⟨"Valid", "identification_card", r0,
   [r0, "Printed details and card features detected (landscape orientation)."],
   checks, min 0.92 (max 0.55 docScore)⟩

/-- Branch 10: generic document-quality failure. -/
def fallbackResult (phrase : String) (checks : List ImageCheck) (docScore : ℚ) :
    ImageAnalysisResult :=
  let r0 := "The submitted " ++ phrase ++ " image failed document-quality checks."
  ⟨"Invalid", "unknown", r0,
   [r0, "Please submit a clearer full-card photo with readable details."],
   checks, min 0.92 (max 0.45 (0.70 - docScore))⟩

/-- `analyze_id_image`, downstream of the external probes.  `cv2Available`
models the `cv2 is None` guard; `sig` gathers the probe outputs on the
downloaded image; `ocrText` is the output `_extract_text_from_image` would
produce (only consulted when a claimed name is supplied, as in the source). -/
def analyzeIdImage (cv2Available : Bool) (ratio : String → String → ℚ)
    (levenshteinAvailable : Bool) (sig : Signals) (ocrText : String)
    (idType userName idNumber : Option String) : ImageAnalysisResult :=
  let normalizedIdType := normalizeIdType idType
  if !cv2Available then
    ⟨"Invalid", "unknown", "Image analysis dependency is not available on the server.",
     ["Image analysis dependency is not available on the server."], [], 0⟩
  else
    let ocrTextUsed := if pyTruthy userName then ocrText else ""
    let nameMatchResult := nameMatchResultOf ratio levenshteinAvailable ocrTextUsed userName
    let fmt := validateIdNumberFormat idNumber normalizedIdType
    let checks := buildChecks sig idNumber nameMatchResult fmt.1 fmt.2
    let phrase := if normalizedIdType.isEmpty then "ID" else normalizedIdType
    let docScore := documentScore sig
    if selfieSignal sig then
      selfieResult phrase checks sig.largest_face_ratio
    else if pyTruthy idNumber && !fmt.1 then
      idFormatFailResult phrase checks fmt.2
    else if nameBranchFires nameMatchResult then
      nameMismatchResult phrase checks (nameSimilarityOf nameMatchResult)
    else if severeBlur sig then
      blurResult phrase checks sig.sharpness
    else if screenshotSignal sig then
      screenshotResult phrase checks sig.text_density
    else if lowTextPresence sig && !sig.has_document_shape then
      lowTextResult phrase checks docScore
    else if sig.has_document_shape && decide ((0.45 : ℚ) ≤ docScore) then
      validShapeResult phrase checks docScore
    else if hasCardPortrait sig && decide ((0.020 : ℚ) ≤ sig.text_density) &&
        decide ((0.55 : ℚ) ≤ docScore) then
      validPortraitResult phrase checks docScore
    else if decide ((0.012 : ℚ) ≤ sig.text_density) &&
        decide ((0.035 : ℚ) ≤ sig.edge_density) && !selfieSignal sig &&
        decide ((0.40 : ℚ) ≤ docScore) then
      validLandscapeResult phrase checks docScore
    else
      fallbackResult phrase checks docScore

/-- Evaluate an ordered list of (guard, outcome) rules, returning the first
outcome whose guard holds, or the default. -/
def firstHit : List (Bool × ImageAnalysisResult) → ImageAnalysisResult → ImageAnalysisResult
  | [], d => d
  | (c, r) :: rest, d => if c then r else firstHit rest d

/-- Written from the spec's words (§4.6): the decision procedure as an
explicit fixed-priority rule list — selfie, ID-number format, name mismatch,
severe blur, screenshot, low text without shape, the three Valid branches,
then the generic Invalid fallback. -/
def decisionCascadeSpec (ratio : String → String → ℚ) (levenshteinAvailable : Bool)
    (sig : Signals) (ocrText : String)
    (idType userName idNumber : Option String) : ImageAnalysisResult :=
  let normalizedIdType := normalizeIdType idType
  let ocrTextUsed := if pyTruthy userName then ocrText else ""
  let nameMatchResult := nameMatchResultOf ratio levenshteinAvailable ocrTextUsed userName
  let fmt := validateIdNumberFormat idNumber normalizedIdType
  let checks := buildChecks sig idNumber nameMatchResult fmt.1 fmt.2
  let phrase := if normalizedIdType.isEmpty then "ID" else normalizedIdType
  let docScore := documentScore sig
  firstHit
    [(selfieSignal sig, selfieResult phrase checks sig.largest_face_ratio),
     (pyTruthy idNumber && !fmt.1, idFormatFailResult phrase checks fmt.2),
     (nameBranchFires nameMatchResult,
      nameMismatchResult phrase checks (nameSimilarityOf nameMatchResult)),
     (severeBlur sig, blurResult phrase checks sig.sharpness),
     (screenshotSignal sig, screenshotResult phrase checks sig.text_density),
     (lowTextPresence sig && !sig.has_document_shape, lowTextResult phrase checks docScore),
     (sig.has_document_shape && decide ((0.45 : ℚ) ≤ docScore),
      validShapeResult phrase checks docScore),
     (hasCardPortrait sig && decide ((0.020 : ℚ) ≤ sig.text_density) &&
        decide ((0.55 : ℚ) ≤ docScore),
      validPortraitResult phrase checks docScore),
     (decide ((0.012 : ℚ) ≤ sig.text_density) && decide ((0.035 : ℚ) ≤ sig.edge_density) &&
        !selfieSignal sig && decide ((0.40 : ℚ) ≤ docScore),
      validLandscapeResult phrase checks docScore)]
    (fallbackResult phrase checks docScore)

/-!
## Theorems
-/

/-- C4: for every ID type with a configured digit requirement and every
non-empty claimed number, `_validate_id_number_format` passes exactly when
the digit count equals the requirement, and otherwise fails with a detail
message stating both the expected and the observed digit counts; absence of
a claimed number or of a configured requirement passes. -/
theorem id_number_format_digit_count
    (idType num idType2 num2 : String) (req : Nat)
    (hreq : idDigitRequirements idType = some req) (hnum : num.isEmpty = false)
    (hreq2 : idDigitRequirements idType2 = none) :
    ((validateIdNumberFormat (some num) idType).1 = true ↔ (digitsOnly num).length = req) ∧
    ((digitsOnly num).length ≠ req →
      (validateIdNumberFormat (some num) idType).2 =
        idType ++ " number must have exactly " ++ toString req ++ " digits " ++
          "(found " ++ toString (digitsOnly num).length ++ " digits in \x27" ++ num ++ "\x27).") ∧
    (validateIdNumberFormat none idType).1 = true ∧
    (validateIdNumberFormat (some num2) idType2).1 = true := by
  refine ⟨?_, ?_, ?_, ?_⟩
  · by_cases h : (digitsOnly num).length = req <;>
      simp [validateIdNumberFormat, pyTruthy, hnum, hreq, h]
  · intro h
    simp [validateIdNumberFormat, pyTruthy, hnum, hreq, h]
  · simp [validateIdNumberFormat, pyTruthy]
  · by_cases h2 : num2.isEmpty <;>
      simp [validateIdNumberFormat, pyTruthy, h2, hreq2]

/-- Witness for C4 at the spec's own example: number "1234" against the
16-digit "National ID" type fails citing 16 expected and 4 found. -/
theorem id_number_format_digit_count_witness :
    ((validateIdNumberFormat (some "1234") "National ID").1 = true ↔
      (digitsOnly "1234").length = 16) ∧
    (validateIdNumberFormat (some "1234") "National ID").2 =
      "National ID number must have exactly 16 digits (found 4 digits in \x271234\x27)." ∧
    (validateIdNumberFormat none "National ID").1 = true ∧
    (validateIdNumberFormat (some "12") "Others").1 = true := by
  obtain ⟨h1, h2, h3, h4⟩ :=
    id_number_format_digit_count "National ID" "1234" "Others" "12" 16
      (by decide) (by decide) (by decide)
  exact ⟨h1, h2 (by decide), h3, h4⟩

/-- C5 (code bug): contrary to the claim and to the table's own inline
comment ("alphanumeric, skip digit check"), the digit-requirement table does
carry an entry for "Passport" (9 digits), so a passport number whose digit
count differs from 9 is rejected rather than exempted: the Philippine-style
passport number "P1234567A" (7 digits) fails the format check. -/
theorem passport_digit_entry_enforced :
    idDigitRequirements "Passport" = some 9 ∧
    validateIdNumberFormat (some "P1234567A") "Passport" =
      (false, "Passport number must have exactly 9 digits (found 7 digits in \x27P1234567A\x27).") := by
  constructor
  · rfl
  · rfl

/-- `bestCandidateSpec` picks the head when it dominates every candidate. -/
theorem best4_first (a b c d : String)
    (h1 : textQualityScore b ≤ textQualityScore a)
    (h2 : textQualityScore c ≤ textQualityScore a)
    (h3 : textQualityScore d ≤ textQualityScore a) :
    bestCandidateSpec [a, b, c, d] = a := by
  unfold bestCandidateSpec
  rw [List.find?_cons_of_pos _ (by
    simp only [List.all_cons, List.all_nil, Bool.and_true, Bool.and_eq_true,
      decide_eq_true_eq]
    exact ⟨le_refl _, h1, h2, h3⟩)]
  rfl

/-- `bestCandidateSpec` picks the second candidate when it strictly beats the
head and dominates the rest. -/
theorem best4_second (a b c d : String)
    (h1 : textQualityScore a < textQualityScore b)
    (h2 : textQualityScore c ≤ textQualityScore b)
    (h3 : textQualityScore d ≤ textQualityScore b) :
    bestCandidateSpec [a, b, c, d] = b := by
  unfold bestCandidateSpec
  rw [List.find?_cons_of_neg _ (by
      simp only [List.all_cons, List.all_nil, Bool.and_true, Bool.and_eq_true,
        decide_eq_true_eq]
      rintro ⟨-, hb, -, -⟩
      exact absurd hb (not_le.mpr h1)),
    List.find?_cons_of_pos _ (by
      simp only [List.all_cons, List.all_nil, Bool.and_true, Bool.and_eq_true,
        decide_eq_true_eq]
      exact ⟨le_of_lt h1, le_refl _, h2, h3⟩)]
  rfl

/-- `bestCandidateSpec` picks the third candidate when it strictly beats the
first two and dominates the last. -/
theorem best4_third (a b c d : String)
    (h1 : textQualityScore a < textQualityScore c)
    (h2 : textQualityScore b < textQualityScore c)
    (h3 : textQualityScore d ≤ textQualityScore c) :
    bestCandidateSpec [a, b, c, d] = c := by
  unfold bestCandidateSpec
  rw [List.find?_cons_of_neg _ (by
      simp only [List.all_cons, List.all_nil, Bool.and_true, Bool.and_eq_true,
        decide_eq_true_eq]
      rintro ⟨-, -, hc, -⟩
      exact absurd hc (not_le.mpr h1)),
    List.find?_cons_of_neg _ (by
      simp only [List.all_cons, List.all_nil, Bool.and_true, Bool.and_eq_true,
        decide_eq_true_eq]
      rintro ⟨-, -, hc, -⟩
      exact absurd hc (not_le.mpr h2)),
    List.find?_cons_of_pos _ (by
      simp only [List.all_cons, List.all_nil, Bool.and_true, Bool.and_eq_true,
        decide_eq_true_eq]
      exact ⟨le_of_lt h1, le_of_lt h2, le_refl _, h3⟩)]
  rfl

/-- `bestCandidateSpec` picks the last candidate when it strictly beats all
earlier ones. -/
theorem best4_fourth (a b c d : String)
    (h1 : textQualityScore a < textQualityScore d)
    (h2 : textQualityScore b < textQualityScore d)
    (h3 : textQualityScore c < textQualityScore d) :
    bestCandidateSpec [a, b, c, d] = d := by
  unfold bestCandidateSpec
  rw [List.find?_cons_of_neg _ (by
      simp only [List.all_cons, List.all_nil, Bool.and_true, Bool.and_eq_true,
        decide_eq_true_eq]
      rintro ⟨-, -, -, hd⟩
      exact absurd hd (not_le.mpr h1)),
    List.find?_cons_of_neg _ (by
      simp only [List.all_cons, List.all_nil, Bool.and_true, Bool.and_eq_true,
        decide_eq_true_eq]
      rintro ⟨-, -, -, hd⟩
      exact absurd hd (not_le.mpr h2)),
    List.find?_cons_of_neg _ (by
      simp only [List.all_cons, List.all_nil, Bool.and_true, Bool.and_eq_true,
        decide_eq_true_eq]
      rintro ⟨-, -, -, hd⟩
      exact absurd hd (not_le.mpr h3)),
    List.find?_cons_of_pos _ (by
      simp only [List.all_cons, List.all_nil, Bool.and_true, Bool.and_eq_true,
        decide_eq_true_eq]
      exact ⟨le_of_lt h1, le_of_lt h2, le_of_lt h3, le_refl _⟩)]
  rfl

/-- C6: the orientation search of `_extract_text_from_image` returns the
unrotated candidate immediately when its quality score is at least 5.0, and
otherwise returns the best-scoring candidate text across the 0°, 90°, 270°,
180° evaluation order, ties resolved in favor of the earliest candidate. -/
theorem extract_text_orientation_search (t0 t90 t270 t180 : String) :
    extractTextFromImage true t0 t90 t270 t180 =
      if 5 ≤ textQualityScore t0 then t0
      else bestCandidateSpec [t0, t90, t270, t180] := by
  unfold extractTextFromImage
  simp only [Bool.not_true, Bool.false_eq_true, if_false]
  by_cases h0 : textQualityScore t0 < 5
  · rw [if_pos h0, if_neg (not_le.mpr h0)]
    by_cases h1 : textQualityScore t0 < textQualityScore t90
    · rw [if_pos h1]
      by_cases h2 : textQualityScore t90 < textQualityScore t270
      · rw [if_pos h2]
        by_cases h3 : textQualityScore t270 < textQualityScore t180
        · rw [if_pos h3]
          exact (best4_fourth _ _ _ _ (by linarith) (by linarith) h3).symm
        · rw [if_neg h3]
          exact (best4_third _ _ _ _ (by linarith) h2 (by linarith)).symm
      · rw [if_neg h2]
        by_cases h3 : textQualityScore t90 < textQualityScore t180
        · rw [if_pos h3]
          exact (best4_fourth _ _ _ _ (by linarith) h3 (by linarith)).symm
        · rw [if_neg h3]
          exact (best4_second _ _ _ _ h1 (by linarith) (by linarith)).symm
    · rw [if_neg h1]
      by_cases h2 : textQualityScore t0 < textQualityScore t270
      · rw [if_pos h2]
        by_cases h3 : textQualityScore t270 < textQualityScore t180
        · rw [if_pos h3]
          exact (best4_fourth _ _ _ _ (by linarith) (by linarith) h3).symm
        · rw [if_neg h3]
          exact (best4_third _ _ _ _ h2 (by linarith) (by linarith)).symm
      · rw [if_neg h2]
        by_cases h3 : textQualityScore t0 < textQualityScore t180
        · rw [if_pos h3]
          exact (best4_fourth _ _ _ _ h3 (by linarith) (by linarith)).symm
        · rw [if_neg h3]
          exact (best4_first _ _ _ _ (by linarith) (by linarith) (by linarith)).symm
  · rw [if_neg h0, if_pos (not_lt.mp h0)]

/-- C7 (amended): for a non-empty claimed name whose normalized form has at
least one token, OCR text of at least 5 trimmed characters, and the
string-similarity capability available, `_match_name` matches exactly when
`match_ratio ≥ 0.60` or `max_similarity ≥ 0.65`, and in both outcomes the
reported confidence is `max match_ratio max_similarity`. -/
theorem match_name_decision (ratio : String → String → ℚ) (ocrText userName : String)
    (hname : userName.isEmpty = false)
    (hocr : 5 ≤ (pyStrip ocrText).length)
    (htoks : userTokensOf userName ≠ []) :
    ((matchName ratio true ocrText userName).1 = true ↔
      ((0.60 : ℚ) ≤ matchRatioOf ratio ocrText userName ∨
       (0.65 : ℚ) ≤ maxSimilarityOf ratio ocrText userName)) ∧
    (matchName ratio true ocrText userName).2.1 =
      max (matchRatioOf ratio ocrText userName) (maxSimilarityOf ratio ocrText userName) := by
  have h1 : ¬ (pyStrip ocrText).length < 5 := by omega
  have h2 : (userTokensOf userName).isEmpty = false := List.isEmpty_eq_false.mpr htoks
  unfold matchName
  simp only [hname, h2, Bool.false_eq_true, if_false, Bool.not_true]
  rw [if_neg h1]
  by_cases hd : (0.60 : ℚ) ≤ matchRatioOf ratio ocrText userName ∨
      (0.65 : ℚ) ≤ maxSimilarityOf ratio ocrText userName
  · rw [if_pos hd]
    exact ⟨by simp [hd], rfl⟩
  · rw [if_neg hd]
    exact ⟨by simp [hd], rfl⟩

/-- Witness for C7 at a concrete matching pair: claimed name "Juan Cruz"
against OCR text "JUAN CRUZ". -/
theorem match_name_decision_witness :
    ((matchName ratioIndicator true "JUAN CRUZ" "Juan Cruz").1 = true ↔
      ((0.60 : ℚ) ≤ matchRatioOf ratioIndicator "JUAN CRUZ" "Juan Cruz" ∨
       (0.65 : ℚ) ≤ maxSimilarityOf ratioIndicator "JUAN CRUZ" "Juan Cruz")) ∧
    (matchName ratioIndicator true "JUAN CRUZ" "Juan Cruz").2.1 =
      max (matchRatioOf ratioIndicator "JUAN CRUZ" "Juan Cruz")
        (maxSimilarityOf ratioIndicator "JUAN CRUZ" "Juan Cruz") :=
  match_name_decision ratioIndicator "JUAN CRUZ" "Juan Cruz" rfl (by decide) (by decide)

/-- C7 (counterexample): the claimed name "123" is non-empty and the OCR text
"hello" has 5 trimmed characters, yet `_match_name` returns a match with
confidence 0.5 through the empty-token early return, although neither
`match_ratio ≥ 0.60` nor `max_similarity ≥ 0.65` holds and the confidence is
not `max match_ratio max_similarity`. -/
theorem match_name_decision_counterexample :
    (matchName ratioIndicator true "hello" "123").1 = true ∧
    (matchName ratioIndicator true "hello" "123").2.1 = 0.5 ∧
    matchRatioOf ratioIndicator "hello" "123" = 0 ∧
    maxSimilarityOf ratioIndicator "hello" "123" = 0 ∧
    ¬((0.60 : ℚ) ≤ matchRatioOf ratioIndicator "hello" "123" ∨
      (0.65 : ℚ) ≤ maxSimilarityOf ratioIndicator "hello" "123") ∧
    (matchName ratioIndicator true "hello" "123").2.1 ≠
      max (matchRatioOf ratioIndicator "hello" "123")
        (maxSimilarityOf ratioIndicator "hello" "123") := by
  have hm : matchName ratioIndicator true "hello" "123" =
      (true, 0.5, "User name format issue (manual verification required).") := rfl
  have hr : matchRatioOf ratioIndicator "hello" "123" = 0 := rfl
  have hs : maxSimilarityOf ratioIndicator "hello" "123" = 0 := by
    unfold maxSimilarityOf
    rw [show pySplitLines "hello" = ["hello"] from rfl]
    simp only [List.foldl_cons, List.foldl_nil]
    rw [show normalizeName "123" = "" from rfl, show normalizeName "hello" = "hello" from rfl]
    rw [if_pos (by
      rw [show String.length "" = 0 from rfl, show String.length "hello" = 5 from rfl]
      norm_num)]
    rw [show ratioIndicator "" "hello" = 0 from rfl]
    norm_num
  refine ⟨by rw [hm], by rw [hm], hr, hs, ?_, ?_⟩
  · rw [hr, hs]
    norm_num
  · rw [hm, hr, hs]
    norm_num

/-- C10: a claimed-name token of exactly two letters is matched only by exact
membership in the OCR token collection — the initial fallback applies only to
length-1 tokens and the prefix/fuzzy fallbacks only to length ≥ 3. -/
theorem two_letter_token_exact_only (ratio : String → String → ℚ)
    (ocrTokens : List String) (token : String) (h : token.length = 2) :
    tokenMatched ratio ocrTokens token = ocrTokens.contains token := by
  unfold tokenMatched
  by_cases hc : ocrTokens.contains token <;> simp [hc, h]

/-- Witness for C10: the two-letter token "de" differs from every OCR token
(it is even a strict prefix of "dela") and is counted unmatched. -/
theorem two_letter_token_exact_only_witness :
    tokenMatched ratioIndicator ["dela", "cruz"] "de" =
      (["dela", "cruz"].contains "de") ∧
    (["dela", "cruz"].contains "de") = false :=
  ⟨two_letter_token_exact_only ratioIndicator ["dela", "cruz"] "de" (by decide),
   by decide⟩

/-- C9: when the Levenshtein capability is unavailable, `_match_name` on a
non-empty claimed name and usable OCR text (≥ 5 trimmed characters) returns
a match with confidence exactly 0.5 and the manual-verification detail, so
the name-mismatch branch guard of `analyze_id_image` can never fire. -/
theorem match_name_levenshtein_unavailable (ratio : String → String → ℚ)
    (ocrText userName : String)
    (hname : userName.isEmpty = false) (hocr : 5 ≤ (pyStrip ocrText).length) :
    matchName ratio false ocrText userName =
      (true, 0.5, "Name matching library not available (manual verification required).") ∧
    nameBranchFires (some (matchName ratio false ocrText userName)) = false := by
  have h1 : ¬ (pyStrip ocrText).length < 5 := by omega
  have h2 : matchName ratio false ocrText userName =
      (true, 0.5, "Name matching library not available (manual verification required).") := by
    simp [matchName, hname, h1]
  exact ⟨h2, by rw [h2]; simp [nameBranchFires]⟩

/-- Witness for C9 at a concrete claimed name and OCR text. -/
theorem match_name_levenshtein_unavailable_witness :
    matchName ratioIndicator false "hello there" "Juan Cruz" =
      (true, 0.5, "Name matching library not available (manual verification required).") ∧
    nameBranchFires (some (matchName ratioIndicator false "hello there" "Juan Cruz")) = false :=
  match_name_levenshtein_unavailable ratioIndicator "hello there" "Juan Cruz"
    (by decide) (by decide)

/-- C3: whenever the selfie signal holds (face ratio ≥ 0.08, no document
shape, text density < 0.015), `analyze_id_image` returns status Invalid,
category selfie, and confidence `min 0.99 (0.65 + face ratio)`. -/
theorem analyze_selfie_branch (ratio : String → String → ℚ) (lev : Bool)
    (sig : Signals) (ocrText : String) (idType userName idNumber : Option String)
    (hface : (0.08 : ℚ) ≤ sig.largest_face_ratio)
    (hshape : sig.has_document_shape = false)
    (hdens : sig.text_density < (0.015 : ℚ)) :
    (analyzeIdImage true ratio lev sig ocrText idType userName idNumber).status = "Invalid" ∧
    (analyzeIdImage true ratio lev sig ocrText idType userName idNumber).category = "selfie" ∧
    (analyzeIdImage true ratio lev sig ocrText idType userName idNumber).confidence =
      min 0.99 (0.65 + sig.largest_face_ratio) := by
  have hs : selfieSignal sig = true := by
    simp [selfieSignal, hface, hshape, hdens]
  refine ⟨?_, ?_, ?_⟩ <;> simp [analyzeIdImage, hs, selfieResult]

/-- Witness for C3 at the spec's example: face ratio 0.30, no document shape,
text density 0.005 yields Invalid/selfie with confidence 0.95. -/
theorem analyze_selfie_branch_witness :
    (analyzeIdImage true ratioIndicator true
      ⟨100, 30, 80, 0.04, 0.005, 0.30, false⟩ "" none none none).status = "Invalid" ∧
    (analyzeIdImage true ratioIndicator true
      ⟨100, 30, 80, 0.04, 0.005, 0.30, false⟩ "" none none none).category = "selfie" ∧
    (analyzeIdImage true ratioIndicator true
      ⟨100, 30, 80, 0.04, 0.005, 0.30, false⟩ "" none none none).confidence = 0.95 := by
  obtain ⟨h1, h2, h3⟩ := analyze_selfie_branch ratioIndicator true
    ⟨100, 30, 80, 0.04, 0.005, 0.30, false⟩ "" none none none
    (by norm_num) rfl (by norm_num)
  refine ⟨h1, h2, ?_⟩
  rw [h3]; norm_num

/-- With the image-processing capability present, the nested conditionals of
`analyze_id_image` compute exactly the first-matching-rule evaluation of the
explicit rule list. -/
theorem analyze_eq_cascade (ratio : String → String → ℚ) (lev : Bool)
    (sig : Signals) (ocrText : String) (idType userName idNumber : Option String) :
    analyzeIdImage true ratio lev sig ocrText idType userName idNumber =
      decisionCascadeSpec ratio lev sig ocrText idType userName idNumber :=
  rfl

/-- First-matching-rule evaluation preserves any field shared by every rule's
outcome and the default outcome; stated for the checks list. -/
theorem firstHit_checks (rules : List (Bool × ImageAnalysisResult))
    (d : ImageAnalysisResult) (c : List ImageCheck)
    (hr : ∀ p ∈ rules, p.2.checks = c) (hd : d.checks = c) :
    (firstHit rules d).checks = c := by
  induction rules with
  | nil => simpa [firstHit] using hd
  | cons p rest ih =>
    obtain ⟨b, r⟩ := p
    have h1 : r.checks = c := hr (b, r) (by simp)
    have h2 : ∀ q ∈ rest, q.2.checks = c := fun q hq => hr q (by simp [hq])
    by_cases hb : b = true
    · simp [firstHit, hb, h1]
    · simp [firstHit, hb, ih h2]

/-- Every decision branch of `analyze_id_image` (with the image-processing
capability present) returns the checks list assembled before the cascade. -/
theorem analyze_checks_eq_buildChecks (ratio : String → String → ℚ) (lev : Bool)
    (sig : Signals) (ocrText : String) (idType userName idNumber : Option String) :
    (analyzeIdImage true ratio lev sig ocrText idType userName idNumber).checks =
      buildChecks sig idNumber
        (nameMatchResultOf ratio lev (if pyTruthy userName then ocrText else "") userName)
        (validateIdNumberFormat idNumber (normalizeIdType idType)).1
        (validateIdNumberFormat idNumber (normalizeIdType idType)).2 := by
  rw [analyze_eq_cascade]
  unfold decisionCascadeSpec
  apply firstHit_checks
  · intro p hp
    simp only [List.mem_cons, List.not_mem_nil, or_false] at hp
    rcases hp with rfl | rfl | rfl | rfl | rfl | rfl | rfl | rfl | rfl <;> rfl
  · rfl

/-- C1 (amended): whenever the image-processing capability is available, the
checks list of `analyze_id_image` names exactly the seven unconditional
entries in their fixed order, followed by one "ID Number Format" entry
exactly when a claimed ID number was supplied, followed by one "Name Match"
entry exactly when a claimed name was supplied — regardless of which
decision branch fired. -/
theorem analyze_checks_names (ratio : String → String → ℚ) (lev : Bool)
    (sig : Signals) (ocrText : String) (idType userName idNumber : Option String) :
    (analyzeIdImage true ratio lev sig ocrText idType userName idNumber).checks.map
        ImageCheck.name =
      ["Card Boundary", "Printed Details", "Sharpness", "Lighting", "Selfie Signal",
       "Card Portrait", "Screenshot Signal"] ++
      (if pyTruthy idNumber then ["ID Number Format"] else []) ++
      (if pyTruthy userName then ["Name Match"] else []) := by
  rw [analyze_checks_eq_buildChecks]
  unfold buildChecks nameMatchResultOf
  by_cases hu : pyTruthy userName <;> by_cases hn : pyTruthy idNumber <;>
    simp [hu, hn]

/-- C1 (counterexample): when the image-processing capability is unavailable,
`analyze_id_image` returns an empty checks list even though both a claimed ID
number and a claimed name were supplied, so the claimed structure
(seven unconditional entries plus the two conditional ones) does not hold. -/
theorem analyze_checks_empty_when_unavailable :
    (analyzeIdImage false ratioIndicator true ⟨100, 30, 80, 0.04, 0.02, 0.1, true⟩
        "JUAN CRUZ" (some "National ID") (some "Juan Cruz") (some "1234")).checks.map
        ImageCheck.name = [] ∧
    ([] : List String) ≠
      ["Card Boundary", "Printed Details", "Sharpness", "Lighting", "Selfie Signal",
       "Card Portrait", "Screenshot Signal", "ID Number Format", "Name Match"] :=
  ⟨rfl, by decide⟩

/-- C2: the decision procedure of `analyze_id_image` equals the explicit
fixed-priority rule list in the claimed order (first matching rule wins), and
in particular, whenever no earlier branch fires and sharpness is below 35,
the status is Invalid — regardless of the document-shape and document-score
conditions of the Valid branches. -/
theorem analyze_cascade_priority (ratio : String → String → ℚ) (lev : Bool)
    (sig : Signals) (ocrText : String) (idType userName idNumber : Option String) :
    analyzeIdImage true ratio lev sig ocrText idType userName idNumber =
      decisionCascadeSpec ratio lev sig ocrText idType userName idNumber ∧
    (selfieSignal sig = false →
     (pyTruthy idNumber &&
        !(validateIdNumberFormat idNumber (normalizeIdType idType)).1) = false →
     nameBranchFires (nameMatchResultOf ratio lev
        (if pyTruthy userName then ocrText else "") userName) = false →
     sig.sharpness < 35 →
     (analyzeIdImage true ratio lev sig ocrText idType userName idNumber).status =
       "Invalid") := by
  refine ⟨analyze_eq_cascade ratio lev sig ocrText idType userName idNumber, ?_⟩
  intro h1 h2 h3 h4
  have hblur : severeBlur sig = true := by simp [severeBlur, h4]
  unfold analyzeIdImage
  simp only [Bool.not_true, Bool.false_eq_true, if_false, h1, h2, h3, hblur,
    if_true, blurResult]

/-- Witness for C2: sharpness 20 on a document-shaped image whose document
score satisfies the first Valid branch's condition still yields Invalid. -/
theorem analyze_cascade_priority_witness :
    analyzeIdImage true ratioIndicator true ⟨100, 30, 20, 0.04, 0.02, 0.1, true⟩
        "" none none none =
      decisionCascadeSpec ratioIndicator true ⟨100, 30, 20, 0.04, 0.02, 0.1, true⟩
        "" none none none ∧
    ((⟨100, 30, 20, 0.04, 0.02, 0.1, true⟩ : Signals).has_document_shape &&
      decide ((0.45 : ℚ) ≤ documentScore ⟨100, 30, 20, 0.04, 0.02, 0.1, true⟩)) = true ∧
    (analyzeIdImage true ratioIndicator true ⟨100, 30, 20, 0.04, 0.02, 0.1, true⟩
        "" none none none).status = "Invalid" := by
  obtain ⟨h1, h2⟩ := analyze_cascade_priority ratioIndicator true
    ⟨100, 30, 20, 0.04, 0.02, 0.1, true⟩ "" none none none
  have hds : documentScore ⟨100, 30, 20, 0.04, 0.02, 0.1, true⟩ = 0.70 := by
    unfold documentScore hasCardPortrait selfieSignal screenshotSignal severeBlur
      softBlur poorLighting
    norm_num
  have hvalid : ((⟨100, 30, 20, 0.04, 0.02, 0.1, true⟩ : Signals).has_document_shape &&
      decide ((0.45 : ℚ) ≤ documentScore ⟨100, 30, 20, 0.04, 0.02, 0.1, true⟩)) = true := by
    rw [hds]
    norm_num
  have hselfie : selfieSignal ⟨100, 30, 20, 0.04, 0.02, 0.1, true⟩ = false := by
    simp [selfieSignal]
  exact ⟨h1, hvalid, h2 hselfie rfl rfl (by norm_num)⟩

/-- A word list is unchanged by an all-whitespace suffix of the input:
processing whitespace only flushes the current word. -/
theorem wordsAux_spaces (b : List Char) (hb : ∀ c ∈ b, isPySpace c = true)
    (cur : List Char) : wordsAux cur b = wordsAux cur [] := by
  induction b generalizing cur with
  | nil => rfl
  | cons c t ih =>
    have hc : isPySpace c = true := hb c (List.mem_cons_self c t)
    have ht : ∀ x ∈ t, isPySpace x = true := fun x hx => hb x (List.mem_cons_of_mem c hx)
    have h0 : wordsAux [] t = [] := (ih ht []).trans rfl
    by_cases hcur : cur = []
    · subst hcur
      simp [wordsAux, hc, h0]
    · simp [wordsAux, hc, hcur, h0]

/-- Appending an all-whitespace suffix does not change the word list. -/
theorem wordsAux_append_spaces (b : List Char) (hb : ∀ c ∈ b, isPySpace c = true) :
    ∀ (a : List Char) (cur : List Char), wordsAux cur (a ++ b) = wordsAux cur a := by
  intro a
  induction a with
  | nil =>
    intro cur
    simpa using wordsAux_spaces b hb cur
  | cons c t ih =>
    intro cur
    simp only [List.cons_append, wordsAux]
    split_ifs <;> simp [ih]

/-- Dropping leading whitespace does not change the word list. -/
theorem wordsAux_dropLeading (l : List Char) :
    wordsAux [] (l.dropWhile isPySpace) = wordsAux [] l := by
  induction l with
  | nil => rfl
  | cons c t ih =>
    by_cases hc : isPySpace c = true
    · rw [List.dropWhile_cons, if_pos hc, ih]
      simp [wordsAux, hc]
    · rw [List.dropWhile_cons, if_neg hc]

/-- Stripping leading and trailing whitespace does not change the word list. -/
theorem wordsAux_pyStrip (s : String) :
    wordsAux [] (pyStrip s).toList = wordsAux [] s.toList := by
  have h1 : (pyStrip s).toList =
      ((s.toList.dropWhile isPySpace).reverse.dropWhile isPySpace).reverse := rfl
  rw [h1]
  set m := s.toList.dropWhile isPySpace with hm
  have hdecomp : (m.reverse.dropWhile isPySpace).reverse ++
      (m.reverse.takeWhile isPySpace).reverse = m := by
    rw [← List.reverse_append, List.takeWhile_append_dropWhile, List.reverse_reverse]
  have hsp : ∀ c ∈ (m.reverse.takeWhile isPySpace).reverse, isPySpace c = true := by
    intro c hc
    rw [List.mem_reverse] at hc
    exact List.mem_takeWhile_imp hc
  calc wordsAux [] (m.reverse.dropWhile isPySpace).reverse
      = wordsAux [] ((m.reverse.dropWhile isPySpace).reverse ++
          (m.reverse.takeWhile isPySpace).reverse) :=
        (wordsAux_append_spaces _ hsp _ []).symm
    _ = wordsAux [] m := by rw [hdecomp]
    _ = wordsAux [] s.toList := wordsAux_dropLeading s.toList

/-- The claimed-name token list is the word list of the normalized characters. -/
theorem userTokensOf_eq_charWords (s : String) :
    userTokensOf s = (charWords s).map fun l => ⟨l⟩ := by
  unfold userTokensOf pyWords normalizeName charWords
  rw [wordsAux_pyStrip]
  rfl

/-- Character normalization distributes over concatenation. -/
theorem normChars_append (a b : List Char) :
    normChars (a ++ b) = normChars a ++ normChars b := by
  simp [normChars]

/-- Character normalization keeps a leading space. -/
theorem normChars_cons_space (r : List Char) :
    normChars (' ' :: r) = ' ' :: normChars r := by
  have h : keepChar ' ' = true := rfl
  simp [normChars, List.filter_cons, h, show Char.toLower ' ' = ' ' from rfl]

/-- The word list of a string split at an interior space is the concatenation
of the word lists of the two halves. -/
theorem wordsAux_split (l2 : List Char) :
    ∀ (l1 cur : List Char),
      wordsAux cur (l1 ++ ' ' :: l2) = wordsAux cur l1 ++ wordsAux [] l2 := by
  intro l1
  induction l1 with
  | nil =>
    intro cur
    have hsp : isPySpace ' ' = true := rfl
    by_cases hcur : cur = []
    · subst hcur
      simp [wordsAux, hsp]
    · simp [wordsAux, hsp, hcur]
  | cons c t ih =>
    intro cur
    simp only [List.cons_append, wordsAux]
    split_ifs <;> simp [ih]

/-- `toList` distributes over string concatenation. -/
theorem string_toList_append (s t : String) :
    (s ++ t).toList = s.toList ++ t.toList := by
  simp [String.toList]

/-- The normalized word list of a space-joined token list is the
concatenation of the tokens' normalized word lists. -/
theorem charWords_join (toks : List String) :
    charWords (joinWithSpace toks) = toks.flatMap charWords := by
  induction toks with
  | nil => rfl
  | cons t ts ih =>
    cases ts with
    | nil => simp [joinWithSpace]
    | cons t2 ts2 =>
      have hj : joinWithSpace (t :: t2 :: ts2) = t ++ " " ++ joinWithSpace (t2 :: ts2) := rfl
      rw [hj]
      calc charWords (t ++ " " ++ joinWithSpace (t2 :: ts2))
          = wordsAux [] (normChars
              (t.toList ++ ' ' :: (joinWithSpace (t2 :: ts2)).toList)) := by
            unfold charWords
            rw [string_toList_append, string_toList_append,
              show (" " : String).toList = [' '] from rfl, List.append_assoc]
            rfl
        _ = wordsAux [] (normChars t.toList ++
              ' ' :: normChars (joinWithSpace (t2 :: ts2)).toList) := by
            rw [normChars_append, normChars_cons_space]
        _ = wordsAux [] (normChars t.toList) ++
              wordsAux [] (normChars (joinWithSpace (t2 :: ts2)).toList) :=
            wordsAux_split _ _ _
        _ = charWords t ++ charWords (joinWithSpace (t2 :: ts2)) := rfl
        _ = charWords t ++ (t2 :: ts2).flatMap charWords := by rw [ih]
        _ = (t :: t2 :: ts2).flatMap charWords := (List.flatMap_cons _ _ _).symm

/-- The claimed-name token list of a space-joined token list is the
concatenation of the individual tokens' token lists. -/
theorem userTokensOf_join (toks : List String) :
    userTokensOf (joinWithSpace toks) = toks.flatMap userTokensOf := by
  rw [userTokensOf_eq_charWords, charWords_join, List.map_flatMap]
  have hf : (fun a => List.map (fun l => (⟨l⟩ : String)) (charWords a)) = userTokensOf := by
    funext a
    exact (userTokensOf_eq_charWords a).symm
  rw [hf]

/-- Exact membership alone settles the per-token match. -/
theorem tokenMatched_of_contains (ratio : String → String → ℚ)
    (ocrTokens : List String) (token : String)
    (h : ocrTokens.contains token = true) :
    tokenMatched ratio ocrTokens token = true := by
  unfold tokenMatched
  rw [if_pos h]

/-- C8: `match_ratio` is invariant under permuting the whitespace-delimited
tokens of the claimed name, and the spec's example — claimed name
"Juan Dela Cruz" against OCR text "CRUZ, DELA JUAN" — matches all three
tokens, giving `match_ratio` 1.0 and a positive match, for every similarity
function. -/
theorem match_ratio_token_order_invariant (ratio : String → String → ℚ)
    (ocrText : String) (toks toks2 : List String) (hperm : toks.Perm toks2) :
    matchRatioOf ratio ocrText (joinWithSpace toks) =
      matchRatioOf ratio ocrText (joinWithSpace toks2) ∧
    matchRatioOf ratio "CRUZ, DELA JUAN" "Juan Dela Cruz" = 1 ∧
    (matchName ratio true "CRUZ, DELA JUAN" "Juan Dela Cruz").1 = true := by
  have hperm2 : (userTokensOf (joinWithSpace toks)).Perm
      (userTokensOf (joinWithSpace toks2)) := by
    rw [userTokensOf_join, userTokensOf_join]
    exact hperm.flatMap_right userTokensOf
  have hmr : matchRatioOf ratio "CRUZ, DELA JUAN" "Juan Dela Cruz" = 1 := by
    have hu : userTokensOf "Juan Dela Cruz" = ["juan", "dela", "cruz"] := rfl
    have ho : ocrTokensOf "CRUZ, DELA JUAN" = ["cruz", "dela", "juan"] := rfl
    have m1 : tokenMatched ratio ["cruz", "dela", "juan"] "juan" = true :=
      tokenMatched_of_contains _ _ _ rfl
    have m2 : tokenMatched ratio ["cruz", "dela", "juan"] "dela" = true :=
      tokenMatched_of_contains _ _ _ rfl
    have m3 : tokenMatched ratio ["cruz", "dela", "juan"] "cruz" = true :=
      tokenMatched_of_contains _ _ _ rfl
    unfold matchRatioOf
    rw [hu, ho]
    simp only [List.isEmpty_cons, Bool.false_eq_true, if_false, List.countP_cons,
      List.countP_nil, m1, m2, m3, List.length_cons, List.length_nil]
    norm_num
  refine ⟨?_, hmr, ?_⟩
  · unfold matchRatioOf
    dsimp only
    have hie : (userTokensOf (joinWithSpace toks)).isEmpty =
        (userTokensOf (joinWithSpace toks2)).isEmpty := by
      by_cases he : userTokensOf (joinWithSpace toks) = []
      · have he2 : userTokensOf (joinWithSpace toks2) = [] := by
          have h := hperm2
          rw [he] at h
          exact (h.symm).eq_nil
        rw [he, he2]
      · have he2 : userTokensOf (joinWithSpace toks2) ≠ [] := by
          intro hnil
          rw [hnil] at hperm2
          exact he hperm2.eq_nil
        rw [List.isEmpty_eq_false.mpr he, List.isEmpty_eq_false.mpr he2]
    rw [hie, hperm2.countP_eq, hperm2.length_eq]
  · unfold matchName
    simp only [show ("Juan Dela Cruz".isEmpty) = false from rfl, Bool.false_eq_true,
      if_false, Bool.not_true,
      show (userTokensOf "Juan Dela Cruz").isEmpty = false from rfl]
    rw [if_neg (by decide : ¬ (pyStrip "CRUZ, DELA JUAN").length < 5)]
    rw [if_pos (Or.inl (by rw [hmr]; norm_num))]

/-- Witness for C8: the permutation ["Juan", "Dela", "Cruz"] against
["Cruz", "Dela", "Juan"], with the concrete similarity function. -/
theorem match_ratio_token_order_invariant_witness :
    matchRatioOf ratioIndicator "CRUZ, DELA JUAN"
        (joinWithSpace ["Juan", "Dela", "Cruz"]) =
      matchRatioOf ratioIndicator "CRUZ, DELA JUAN"
        (joinWithSpace ["Cruz", "Dela", "Juan"]) ∧
    matchRatioOf ratioIndicator "CRUZ, DELA JUAN" "Juan Dela Cruz" = 1 ∧
    (matchName ratioIndicator true "CRUZ, DELA JUAN" "Juan Dela Cruz").1 = true :=
  match_ratio_token_order_invariant ratioIndicator "CRUZ, DELA JUAN"
    ["Juan", "Dela", "Cruz"] ["Cruz", "Dela", "Juan"] (by decide)
